import Mathlib

/-!
Verification of the submanifold module of the SageManifolds repository
(src/spkg/manifolds-0.1/src/manifolds/submanifold.py).

The module defines two classes layered on the host computer-algebra
system's manifold abstraction:

* `Submanifold.__init__` validates its arguments (ambient manifold type,
  number of embedding coordinate functions), registers a chart on the new
  manifold, converts the embedding functions to symbolic expressions and
  stores an embedding mapping.
* `Submanifold.plot` selects the Cartesian coordinate expression of the
  embedding and delegates to the host parametric-plot routine, raising
  errors for unsupported ambient manifolds and dimensions.
* `MCurve` fixes the dimension to 1 and overrides the textual description.

The host types (Manifold, Chart, DiffMapping, the symbolic ring SR, the
plotting routine) are not part of the source under verification; they are
modelled below from the spec and the module docstrings, with each such
definition marked "Modelled from the spec". Python exceptions are modelled
with an explicit error type and `Except`.
-/

/-- Python exceptions that the code under verification can raise. -/
inductive PyError where
  | typeError (msg : String)
  | valueError (msg : String)
  | keyError (key : String × String)
  | keyErrorAtlas (key : String)
  | indexError
  | attributeError (msg : String)
  | notImplementedError (msg : String)
deriving DecidableEq, Repr

/-- Modelled from the spec: a symbolic expression of the host
computer-algebra system, kept opaque (a tag around its textual form). -/
inductive SymExpr where
  | sym (s : String)
deriving DecidableEq, Repr

/-- An element of the `embedding_functions` argument: either a pre-built
symbolic expression or a string to be parsed by the host system. -/
inductive EmbArg where
  | expr (e : SymExpr)
  | str (s : String)
deriving DecidableEq, Repr

/-- Modelled from the spec: conversion to the host symbolic-expression
type (`SR(...)` in the source): pre-built symbolic expressions pass
through unchanged and strings are parsed into symbolic expressions. -/
def SR : EmbArg → SymExpr
  | EmbArg.expr e => e
  | EmbArg.str s => SymExpr.sym s

/-- Modelled from the spec: a coordinate chart of the host system, with
its name and its tuple `xx` of coordinate symbols. -/
structure Chart where
  name : String
  xx : List String
deriving DecidableEq, Repr

/-- Modelled from the spec: the host manifold base type, with its
dimension, optional name and LaTeX name, start index, atlas (a dictionary
from chart names to charts) and optional default chart. -/
structure Manifold where
  dim : Nat
  name : Option String
  latex_name : Option String
  start_index : Int
  atlas : List (String × Chart)
  def_chart : Option Chart
deriving DecidableEq, Repr

/-- Modelled from the spec: the differentiable-mapping type; it records
the coordinate expression of the mapping as a dictionary keyed by a pair
(departure chart name, arrival chart name), each entry holding the list
of per-coordinate symbolic functions. -/
structure DiffMapping where
  coord_expression : List ((String × String) × List SymExpr)
deriving DecidableEq, Repr

/-- The `ambient_manifold` argument of the constructor: Python is
dynamically typed, so the caller can pass a manifold or any other
object. -/
inductive AmbArg where
  | manifold (m : Manifold)
  | nonManifold (desc : String)
deriving DecidableEq, Repr

/-- The state of a constructed submanifold: the fields set by
`Manifold.__init__` (dim, name, latex_name, start_index), the chart
registered on it by `Chart(self, coord_symbols, chart_name)` (atlas and
default chart), and the fields set by `Submanifold.__init__` itself
(`ambient_manifold`, `embedding`). -/
structure Submanifold where
  dim : Nat
  name : Option String
  latex_name : Option String
  start_index : Int
  atlas : List (String × Chart)
  def_chart : Chart
  ambient_manifold : Manifold
  embedding : DiffMapping
deriving DecidableEq, Repr

/-- Splitting of a character list at every separator character. -/
def splitOnPred (p : Char → Bool) : List Char → List (List Char)
  | [] => [[]]
  | c :: cs =>
    let r := splitOnPred p cs
    if p c then [] :: r
    else
      match r with
      | [] => [[c]]
      | t :: ts => (c :: t) :: ts

/-- The part of a coordinate token before the first colon. -/
def beforeColon : List Char → List Char
  | [] => []
  | c :: cs => if c = ':' then [] else c :: beforeColon cs

/-- Modelled from the spec: the chart constructor parses the coordinate
symbols from a string in which coordinates are separated by spaces or
commas, each coordinate having optional fields after a colon (the symbol
itself is the first field). -/
def parseCoordSymbols (s : String) : List String :=
  ((splitOnPred (fun c => c = ' ' || c = ',') s.data).filter
      (fun t => t ≠ [])).map
    (fun t => String.mk (beforeColon t))

/-- Resolution of the `ambient_chart` argument (submanifold.py lines
124-125): when it is unspecified the name of the ambient manifold's
default chart is used; accessing `.name` on an absent default chart is a
Python attribute error. -/
def resolveArrival (ambient_chart : Option String) (amb : Manifold) :
    Except PyError String :=
  match ambient_chart with
  | some c => Except.ok c
  | none =>
    match amb.def_chart with
    | some dc => Except.ok dc.name
    | none => Except.error (PyError.attributeError ("def_chart"))

/-- `Submanifold.__init__` (submanifold.py lines 115-133): initializes the
manifold base fields, registers the chart built from `coord_symbols` and
`chart_name`, checks that `ambient_manifold` is a Manifold, resolves the
arrival chart, checks that the number of embedding functions equals the
ambient dimension, converts each embedding function with `SR` and stores
the embedding mapping. -/
def Submanifold.init (n : Nat) (coord_symbols : String) (chart_name : String)
    (ambient_manifold : AmbArg) (embedding_functions : List EmbArg)
    (name : Option String) (latex_name : Option String)
    (ambient_chart : Option String) (start_index : Int) :
    Except PyError Submanifold :=
  let chart : Chart := { name := chart_name, xx := parseCoordSymbols coord_symbols }
  match ambient_manifold with
  | AmbArg.nonManifold _ =>
      Except.error (PyError.typeError
        ("The argument ambient_manifold must be a manifold."))
  | AmbArg.manifold amb =>
    match resolveArrival ambient_chart amb with
    | Except.error e => Except.error e
    | Except.ok arrival =>
      let n_amb := amb.dim
      if embedding_functions.length ≠ n_amb then
        Except.error (PyError.valueError
          (toString n_amb ++ " coordinate functions must be provided."))
      else
        let embedding_expressions :=
          (List.range n_amb).map
            (fun i => SR (embedding_functions.getD i (EmbArg.str (""))))
        Except.ok
          { dim := n, name := name, latex_name := latex_name,
            start_index := start_index,
            atlas := [(chart_name, chart)], def_chart := chart,
            ambient_manifold := amb,
            embedding :=
              { coord_expression :=
                  [((chart_name, arrival), embedding_expressions)] } }

/-- `MCurve.__init__` (submanifold.py lines 275-280): delegates to the
submanifold constructor with the dimension fixed to 1 and the default
start index. -/
def MCurve.init (param_symbols : String) (param_name : String)
    (ambient_manifold : AmbArg) (embedding_functions : List EmbArg)
    (name : Option String) (latex_name : Option String)
    (ambient_chart : Option String) : Except PyError Submanifold :=
  Submanifold.init 1 param_symbols param_name ambient_manifold
    embedding_functions name latex_name ambient_chart 0

/-- An entry of the `coord_ranges` argument of `plot`: Python lets the
caller pass a flat list of numbers or a list of lists of numbers. -/
inductive RVal where
  | num (x : Int)
  | lst (xs : List Int)
deriving DecidableEq, Repr

/-- Python list indexing: out-of-range access raises an index error. -/
def pyIdx (xs : List α) (i : Nat) : Except PyError α :=
  match xs.get? i with
  | some x => Except.ok x
  | none => Except.error PyError.indexError

/-- Python subscripting of a `coord_ranges` entry: subscripting a number
raises a type error, out-of-range subscripting of a list raises an index
error. -/
def RVal.index : RVal → Nat → Except PyError Int
  | RVal.num _, _ =>
      Except.error (PyError.typeError ("object is not subscriptable"))
  | RVal.lst xs, i =>
      match xs.get? i with
      | some x => Except.ok x
      | none => Except.error PyError.indexError

/-- Modelled from the spec: the graphics object returned by the host
parametric-plot routine, recording the coordinate functions and the
per-coordinate ranges (coordinate symbol, lower bound, upper bound) that
were passed to it. -/
structure Graph where
  functions : List SymExpr
  ranges : List (String × RVal × RVal)
deriving DecidableEq, Repr

/-- Construction of the i-th coordinate range tuple `(chart.xx[i],
coord_ranges[i][0], coord_ranges[i][1])` used by the two-dimensional
branch of `plot` (submanifold.py lines 196-197), with Python's
left-to-right evaluation of the indexing operations. -/
def plotRange (xs : List String) (coord_ranges : List RVal) (i : Nat) :
    Except PyError (String × RVal × RVal) :=
  match pyIdx xs i with
  | Except.error e => Except.error e
  | Except.ok xi =>
    match pyIdx coord_ranges i with
    | Except.error e => Except.error e
    | Except.ok cri =>
      match RVal.index cri 0 with
      | Except.error e => Except.error e
      | Except.ok a =>
        match RVal.index cri 1 with
        | Except.error e => Except.error e
        | Except.ok b => Except.ok (xi, RVal.num a, RVal.num b)

/-- `Submanifold.plot` (submanifold.py lines 136-205): resolves the chart
name, requires the ambient manifold name to be R3 or R2 (otherwise a
not-implemented error), requires a chart named cart in the ambient atlas
(otherwise a value error), looks up the Cartesian coordinate expression
of the embedding (an unguarded dictionary access: a key error when
absent), looks up the chart on the submanifold, and builds the parametric
plot for dimension 1 or 2 (otherwise a value error). -/
def Submanifold.plot (s : Submanifold) (coord_ranges : List RVal)
    (chartname : Option String) : Except PyError Graph :=
  let cn := chartname.getD s.def_chart.name
  match s.ambient_manifold.name with
  | none =>
      Except.error (PyError.notImplementedError
        ("Plotting is implemented only for submanifolds of R^2 or R^3."))
  | some a =>
    if a = "R3" ∨ a = "R2" then
      if (s.ambient_manifold.atlas.lookup ("cart")).isNone then
        Except.error (PyError.valueError
          (("For drawing, ") ++ a ++ (" Cartesian coordinates must be defined.")))
      else
        match s.embedding.coord_expression.lookup (cn, "cart") with
        | none => Except.error (PyError.keyError (cn, "cart"))
        | some coord_functions =>
          match s.atlas.lookup cn with
          | none => Except.error (PyError.keyErrorAtlas cn)
          | some chart =>
            if s.dim = 1 then
              match pyIdx chart.xx 0 with
              | Except.error e => Except.error e
              | Except.ok x0 =>
                match pyIdx coord_ranges 0 with
                | Except.error e => Except.error e
                | Except.ok r0 =>
                  match pyIdx coord_ranges 1 with
                  | Except.error e => Except.error e
                  | Except.ok r1 =>
                      Except.ok (Graph.mk coord_functions [(x0, r0, r1)])
            else if s.dim = 2 then
              match plotRange chart.xx coord_ranges 0 with
              | Except.error e => Except.error e
              | Except.ok urange =>
                match plotRange chart.xx coord_ranges 1 with
                | Except.error e => Except.error e
                | Except.ok vrange =>
                    Except.ok (Graph.mk coord_functions [urange, vrange])
            else
              Except.error (PyError.valueError
                ("The dimension must be at most 2 for plotting."))
    else
      Except.error (PyError.notImplementedError
        ("Plotting is implemented only for submanifolds of R^2 or R^3."))

/-- Modelled from the spec: the generic manifold description, as shown in
the module docstrings (for example "2-dimensional manifold \x27S2\x27"). -/
def Manifold.describe (m : Manifold) : String :=
  toString m.dim ++ ("-dimensional manifold") ++
    (match m.name with
     | some nm => (" \x27") ++ nm ++ ("\x27")
     | none => (""))

/-- The generic manifold description inherited by a submanifold when its
`\x5fstr\x5f` is not overridden; same shape as `Manifold.describe`. -/
def Submanifold.describe (s : Submanifold) : String :=
  toString s.dim ++ ("-dimensional manifold") ++
    (match s.name with
     | some nm => (" \x27") ++ nm ++ ("\x27")
     | none => (""))

/-- `MCurve._repr_` (submanifold.py lines 282-290): the overridden string
description of a curve. -/
def MCurve.describe (c : Submanifold) : String :=
  let description := "curve"
  let description :=
    match c.name with
    | some nm => description ++ (" \x27") ++ nm ++ ("\x27")
    | none => description
  description ++ (" on ") ++ Manifold.describe c.ambient_manifold

/-! Concrete fixtures used by witnesses and counterexamples, following the
docstring examples of the module. -/

/-- The Cartesian chart of the docstring examples. -/
def cartChart : Chart := { name := "cart", xx := ["x", "y", "z"] }

/-- The ambient manifold R3 of the docstring examples, with its Cartesian
chart registered. -/
def R3ex : Manifold :=
  { dim := 3, name := some ("R3"), latex_name := none, start_index := 0,
    atlas := [(("cart"), cartChart)], def_chart := some cartChart }

/-- The sphere submanifold of the docstring examples, as produced by the
constructor (the embedding functions are kept abstract tags). -/
def sphereEx : Submanifold :=
  { dim := 2, name := some ("S2"), latex_name := none, start_index := 0,
    atlas := [(("spher"), { name := "spher", xx := ["u", "v"] })],
    def_chart := { name := "spher", xx := ["u", "v"] },
    ambient_manifold := R3ex,
    embedding :=
      { coord_expression :=
          [((("spher"), ("cart")),
            [SymExpr.sym ("fx"), SymExpr.sym ("fy"), SymExpr.sym ("fz")])] } }

/-- An ambient manifold whose name is neither R2 nor R3. -/
def M4ex : Manifold :=
  { dim := 4, name := some ("M4"), latex_name := none, start_index := 0,
    atlas := [(("cart"), cartChart)], def_chart := some cartChart }

/-- A curve embedded in `M4ex`. -/
def subM4ex : Submanifold :=
  { dim := 1, name := some ("C"), latex_name := none, start_index := 0,
    atlas := [(("t"), { name := "t", xx := ["t"] })],
    def_chart := { name := "t", xx := ["t"] },
    ambient_manifold := M4ex,
    embedding :=
      { coord_expression := [((("t"), ("cart")), [SymExpr.sym ("f")])] } }

/-- A copy of R3 on which no Cartesian chart has been registered. -/
def R3noCart : Manifold :=
  { dim := 3, name := some ("R3"), latex_name := none, start_index := 0,
    atlas := [], def_chart := none }

/-- A curve embedded in `R3noCart`. -/
def subNoCart : Submanifold :=
  { dim := 1, name := some ("C"), latex_name := none, start_index := 0,
    atlas := [(("t"), { name := "t", xx := ["t"] })],
    def_chart := { name := "t", xx := ["t"] },
    ambient_manifold := R3noCart,
    embedding :=
      { coord_expression := [((("t"), ("cart")), [SymExpr.sym ("f")])] } }

/-- A 3-dimensional submanifold of `R3ex`. -/
def sub3dEx : Submanifold :=
  { dim := 3, name := some ("B"), latex_name := none, start_index := 0,
    atlas := [(("c3"), { name := "c3", xx := ["p", "q", "r"] })],
    def_chart := { name := "c3", xx := ["p", "q", "r"] },
    ambient_manifold := R3ex,
    embedding :=
      { coord_expression :=
          [((("c3"), ("cart")),
            [SymExpr.sym ("g1"), SymExpr.sym ("g2"), SymExpr.sym ("g3")])] } }

/-- The helix curve of the module docstring: a 1-dimensional submanifold
of `R3ex` with a one-symbol chart. -/
def helixEx : Submanifold :=
  { dim := 1, name := some ("helix"), latex_name := none, start_index := 0,
    atlas := [(("t"), { name := "t", xx := ["t"] })],
    def_chart := { name := "t", xx := ["t"] },
    ambient_manifold := R3ex,
    embedding :=
      { coord_expression :=
          [((("t"), ("cart")),
            [SymExpr.sym ("c1"), SymExpr.sym ("c2"), SymExpr.sym ("c3")])] } }

/-- Evaluating a list comprehension over `range n` with in-range indexing
is the same as mapping over the list itself. -/
theorem map_range_getD {α β : Type} (f : α → β) (d : α) (ef : List α) :
    (List.range ef.length).map (fun i => f (ef.getD i d)) = ef.map f := by
  induction ef with
  | nil => simp
  | cons a tl ih =>
    rw [List.length_cons, List.range_succ_eq_map, List.map_cons, List.map_map]
    simp only [Function.comp_def, List.getD_cons_zero, List.getD_cons_succ]
    rw [ih, List.map_cons]

/-- Claim C2: constructing a submanifold with a non-manifold
`ambient_manifold` argument raises a type error. -/
theorem submanifold_init_type_error (n : Nat) (cs cn r : String)
    (ef : List EmbArg) (nm ln : Option String) (ac : Option String) (si : Int) :
    Submanifold.init n cs cn (AmbArg.nonManifold r) ef nm ln ac si =
      Except.error (PyError.typeError
        ("The argument ambient_manifold must be a manifold.")) := rfl

/-- Claim C1: with an ambient manifold of dimension n, an embedding
function list whose length is not n makes the constructor raise a value
error, and every successfully constructed submanifold's embedding carries
exactly as many coordinate expressions as the ambient dimension. -/
theorem submanifold_init_dim_check (n : Nat) (cs cn : String) (amb : Manifold)
    (ef : List EmbArg) (nm ln : Option String) (ac : Option String) (si : Int)
    (arrival : String) (har : resolveArrival ac amb = Except.ok arrival) :
    (ef.length ≠ amb.dim →
      Submanifold.init n cs cn (AmbArg.manifold amb) ef nm ln ac si =
        Except.error (PyError.valueError
          (toString amb.dim ++ " coordinate functions must be provided.")))
    ∧ (∀ s : Submanifold,
        Submanifold.init n cs cn (AmbArg.manifold amb) ef nm ln ac si =
          Except.ok s →
        s.embedding.coord_expression.map (fun p => (p.2).length) =
          [s.ambient_manifold.dim]) := by
  constructor
  · intro hlen
    simp only [Submanifold.init, har]
    rw [if_pos hlen]
  · intro s hs
    simp only [Submanifold.init, har] at hs
    split at hs
    · exact absurd hs (by simp)
    · cases hs
      simp

/-- Witness for claim C1 at a concrete input: two embedding functions for
the 3-dimensional ambient manifold `R3ex`. -/
theorem submanifold_init_dim_check_witness :
    Submanifold.init 2 ("u v") ("spher") (AmbArg.manifold R3ex)
      [EmbArg.str ("f1"), EmbArg.str ("f2")] (some ("S2")) none none 0 =
      Except.error (PyError.valueError
        (toString R3ex.dim ++ " coordinate functions must be provided.")) :=
  (submanifold_init_dim_check 2 ("u v") ("spher") R3ex
    [EmbArg.str ("f1"), EmbArg.str ("f2")] (some ("S2")) none none 0
    ("cart") rfl).1 (by decide)

/-- Claim C5: a successful construction with an ambient manifold of
dimension n stores an embedding whose single coordinate expression entry
holds exactly n coordinate functions, namely the supplied list with each
element converted by `SR`; the conversion passes pre-built symbolic
expressions through and parses strings. -/
theorem submanifold_init_embedding (n : Nat) (cs cn : String) (amb : Manifold)
    (ef : List EmbArg) (nm ln : Option String) (ac : Option String) (si : Int)
    (arrival : String) (s : Submanifold)
    (har : resolveArrival ac amb = Except.ok arrival)
    (h : Submanifold.init n cs cn (AmbArg.manifold amb) ef nm ln ac si =
      Except.ok s) :
    s.embedding.coord_expression = [((cn, arrival), ef.map SR)]
    ∧ (ef.map SR).length = amb.dim
    ∧ (∀ e, SR (EmbArg.expr e) = e)
    ∧ (∀ t, SR (EmbArg.str t) = SymExpr.sym t) := by
  simp only [Submanifold.init, har] at h
  split at h
  · exact absurd h (by simp)
  · rename_i hlen
    rw [not_not] at hlen
    cases h
    refine ⟨?_, ?_, fun e => rfl, fun t => rfl⟩
    · simp only []
      rw [← hlen, map_range_getD]
    · rw [List.length_map, hlen]

/-- Witness for claim C5 at a concrete input: the sphere example of the
module docstring, with one pre-built expression and two strings. -/
theorem submanifold_init_embedding_witness :
    (Submanifold.mk 2 (some ("S2")) none 0
        [(("spher"), Chart.mk ("spher") ["u", "v"])]
        (Chart.mk ("spher") ["u", "v"]) R3ex
        (DiffMapping.mk
          [((("spher"), ("cart")),
            [SymExpr.sym ("fx"), SymExpr.sym ("fy"), SymExpr.sym ("fz")])])
      ).embedding.coord_expression =
    [((("spher"), ("cart")),
      [EmbArg.expr (SymExpr.sym ("fx")), EmbArg.str ("fy"),
        EmbArg.str ("fz")].map SR)] :=
  (submanifold_init_embedding 2 ("u v") ("spher") R3ex
    [EmbArg.expr (SymExpr.sym ("fx")), EmbArg.str ("fy"), EmbArg.str ("fz")]
    (some ("S2")) none (some ("cart")) 0 ("cart") _ rfl rfl).1

/-- Claim C7: when the `ambient_chart` argument is unspecified, the
embedding mapping of a successfully constructed submanifold has the
ambient manifold's default chart as its arrival chart. -/
theorem submanifold_init_default_chart (n : Nat) (cs cn : String)
    (amb : Manifold) (ef : List EmbArg) (nm ln : Option String) (si : Int)
    (dc : Chart) (s : Submanifold)
    (hdc : amb.def_chart = some dc)
    (h : Submanifold.init n cs cn (AmbArg.manifold amb) ef nm ln none si =
      Except.ok s) :
    s.embedding.coord_expression = [((cn, dc.name), ef.map SR)] := by
  have har : resolveArrival none amb = Except.ok dc.name := by
    simp [resolveArrival, hdc]
  exact (submanifold_init_embedding n cs cn amb ef nm ln none si dc.name s
    har h).1

/-- Witness for claim C7 at a concrete input: constructing over `R3ex`
without an `ambient_chart` argument lands on the default chart cart. -/
theorem submanifold_init_default_chart_witness :
    (Submanifold.mk 1 (some ("helix")) none 0
        [(("t"), Chart.mk ("t") ["t"])] (Chart.mk ("t") ["t"]) R3ex
        (DiffMapping.mk
          [((("t"), ("cart")),
            [SymExpr.sym ("c1"), SymExpr.sym ("c2"), SymExpr.sym ("c3")])])
      ).embedding.coord_expression =
    [((("t"), cartChart.name),
      [EmbArg.str ("c1"), EmbArg.str ("c2"), EmbArg.str ("c3")].map SR)] :=
  submanifold_init_default_chart 1 ("t") ("t") R3ex
    [EmbArg.str ("c1"), EmbArg.str ("c2"), EmbArg.str ("c3")]
    (some ("helix")) none 0 cartChart _ rfl rfl

/-- Claim C8: the constructor yields a submanifold exactly when all its
checks pass; every failure returns an error and leaves no constructed
submanifold reachable. -/
theorem submanifold_init_no_partial (n : Nat) (cs cn : String) (ma : AmbArg)
    (ef : List EmbArg) (nm ln : Option String) (ac : Option String) (si : Int) :
    (∃ s, Submanifold.init n cs cn ma ef nm ln ac si = Except.ok s) ↔
    (∃ amb, ma = AmbArg.manifold amb ∧
      (∃ arrival, resolveArrival ac amb = Except.ok arrival) ∧
      ef.length = amb.dim) := by
  cases ma with
  | nonManifold r => simp [Submanifold.init]
  | manifold amb =>
    cases hra : resolveArrival ac amb with
    | error e => simp [Submanifold.init, hra]
    | ok arrival =>
      by_cases hlen : ef.length = amb.dim
      · simp [Submanifold.init, hra, hlen]
      · simp [Submanifold.init, hra, hlen]

/-- Claim C6: a successfully constructed curve has dimension 1 and its
description starts with the word curve and ends with the ambient
manifold's description, differing from the generic manifold
description. -/
theorem mcurve_dim_one_description (ps pn : String) (ma : AmbArg)
    (ef : List EmbArg) (nm ln : Option String) (ac : Option String)
    (c : Submanifold)
    (h : MCurve.init ps pn ma ef nm ln ac = Except.ok c) :
    c.dim = 1
    ∧ (∃ mid, MCurve.describe c =
        ("curve") ++ mid ++ Manifold.describe c.ambient_manifold)
    ∧ MCurve.describe c ≠ Submanifold.describe c := by
  have hdim : c.dim = 1 := by
    cases ma with
    | nonManifold r => exact absurd h (by simp [MCurve.init, Submanifold.init])
    | manifold amb =>
      simp only [MCurve.init, Submanifold.init] at h
      split at h
      · exact absurd h (by simp)
      · split at h
        · exact absurd h (by simp)
        · cases h
          rfl
  refine ⟨hdim, ?_, ?_⟩
  · cases hnm : c.name with
    | none =>
      refine ⟨(" on "), ?_⟩
      simp [MCurve.describe, hnm, String.append_assoc]
    | some nm0 =>
      refine ⟨(" \x27") ++ nm0 ++ ("\x27") ++ (" on "), ?_⟩
      simp [MCurve.describe, hnm, String.append_assoc]
      rw [← String.append_assoc]
      rfl
  · intro heq
    have hc : (MCurve.describe c).data.head? = some 'c' := by
      cases hnm : c.name <;>
        simp [MCurve.describe, hnm, String.data_append]
    have h1 : (Submanifold.describe c).data.head? = some '1' := by
      cases hnm : c.name <;>
        · simp [Submanifold.describe, hnm, hdim, String.data_append]
          rfl
    rw [heq] at hc
    exact absurd (hc.symm.trans h1) (by decide)

/-- Witness for claim C6 at a concrete input: the helix curve of the
module docstring. -/
theorem mcurve_dim_one_description_witness :
    (Submanifold.mk 1 (some ("helix")) none 0
        [(("t"), Chart.mk ("t") ["t"])] (Chart.mk ("t") ["t"]) R3ex
        (DiffMapping.mk
          [((("t"), ("cart")),
            [SymExpr.sym ("c1"), SymExpr.sym ("c2"), SymExpr.sym ("c3")])])
      ).dim = 1 :=
  (mcurve_dim_one_description ("t") ("t") (AmbArg.manifold R3ex)
    [EmbArg.str ("c1"), EmbArg.str ("c2"), EmbArg.str ("c3")]
    (some ("helix")) none none _ rfl).1

/-- After the ambient-name check, the cart-chart check and the two
dictionary lookups succeed, `plot` reduces to its dimension dispatch. -/
theorem plot_past_checks (s : Submanifold) (cr : List RVal) (cname a : String)
    (fns : List SymExpr) (chart : Chart)
    (ha : s.ambient_manifold.name = some a)
    (hR : a = "R2" ∨ a = "R3")
    (hcart : (s.ambient_manifold.atlas.lookup ("cart")).isSome = true)
    (hfns : s.embedding.coord_expression.lookup (cname, ("cart")) = some fns)
    (hch : s.atlas.lookup cname = some chart) :
    Submanifold.plot s cr (some cname) =
      (if s.dim = 1 then
        match pyIdx chart.xx 0 with
        | Except.error e => Except.error e
        | Except.ok x0 =>
          match pyIdx cr 0 with
          | Except.error e => Except.error e
          | Except.ok r0 =>
            match pyIdx cr 1 with
            | Except.error e => Except.error e
            | Except.ok r1 => Except.ok (Graph.mk fns [(x0, r0, r1)])
      else if s.dim = 2 then
        match plotRange chart.xx cr 0 with
        | Except.error e => Except.error e
        | Except.ok urange =>
          match plotRange chart.xx cr 1 with
          | Except.error e => Except.error e
          | Except.ok vrange => Except.ok (Graph.mk fns [urange, vrange])
      else
        Except.error (PyError.valueError
          ("The dimension must be at most 2 for plotting."))) := by
  obtain ⟨cc, hcc⟩ := Option.isSome_iff_exists.mp hcart
  simp only [Submanifold.plot, ha, Option.getD_some]
  rw [if_pos hR.symm]
  simp only [hcc, Option.isNone_some, Bool.false_eq_true, if_false, hfns, hch]

/-- Counterexample to claim C3 as stated: a non-R2/R3 ambient name and a
missing cart chart make `plot` fail with two different errors (a
not-implemented error and a value error), not one and the same error. -/
theorem plot_ambient_errors_differ :
    Submanifold.plot subM4ex [] none =
      Except.error (PyError.notImplementedError
        ("Plotting is implemented only for submanifolds of R^2 or R^3."))
    ∧ Submanifold.plot subNoCart [] none =
      Except.error (PyError.valueError
        ("For drawing, R3 Cartesian coordinates must be defined."))
    ∧ PyError.notImplementedError
        ("Plotting is implemented only for submanifolds of R^2 or R^3.") ≠
      PyError.valueError
        ("For drawing, R3 Cartesian coordinates must be defined.") :=
  ⟨rfl, rfl, by decide⟩

/-- Claim C3 (amended): a submanifold whose ambient manifold is not named
R2 or R3 makes `plot` fail with the not-implemented error, and one whose
ambient manifold lacks a cart chart makes `plot` fail with a value error
naming the ambient manifold; the two errors are distinct. -/
theorem plot_unsupported_ambient (s : Submanifold) (cr : List RVal)
    (cn : Option String) :
    (s.ambient_manifold.name ≠ some ("R2") →
      s.ambient_manifold.name ≠ some ("R3") →
      Submanifold.plot s cr cn =
        Except.error (PyError.notImplementedError
          ("Plotting is implemented only for submanifolds of R^2 or R^3.")))
    ∧ (∀ a, s.ambient_manifold.name = some a → (a = "R2" ∨ a = "R3") →
        s.ambient_manifold.atlas.lookup ("cart") = none →
        Submanifold.plot s cr cn =
          Except.error (PyError.valueError
            (("For drawing, ") ++ a ++
              (" Cartesian coordinates must be defined.")))) := by
  constructor
  · intro h2 h3
    simp only [Submanifold.plot]
    split
    · rfl
    · rename_i a ha
      rw [if_neg]
      intro hor
      cases hor with
      | inl h => exact h3 (by rw [ha, h])
      | inr h => exact h2 (by rw [ha, h])
  · intro a ha hR hcart
    simp only [Submanifold.plot, ha]
    rw [if_pos hR.symm]
    simp [hcart]

/-- Witness for the amended claim C3 at a concrete input: the curve
embedded in the 4-dimensional ambient manifold `M4ex`. -/
theorem plot_unsupported_ambient_witness :
    Submanifold.plot subM4ex [RVal.num 0, RVal.num 1] none =
      Except.error (PyError.notImplementedError
        ("Plotting is implemented only for submanifolds of R^2 or R^3.")) :=
  (plot_unsupported_ambient subM4ex [RVal.num 0, RVal.num 1] none).1
    (by decide) (by decide)

/-- Claim C4: once the ambient checks and lookups succeed, plotting a
submanifold of dimension greater than 2 fails with the
unsupported-dimension value error; moreover any successful plot call is
on a submanifold of dimension at most 2. -/
theorem plot_dimension_check (s : Submanifold) (cr : List RVal)
    (cname a : String) (fns : List SymExpr) (chart : Chart)
    (ha : s.ambient_manifold.name = some a)
    (hR : a = "R2" ∨ a = "R3")
    (hcart : (s.ambient_manifold.atlas.lookup ("cart")).isSome = true)
    (hfns : s.embedding.coord_expression.lookup (cname, ("cart")) = some fns)
    (hch : s.atlas.lookup cname = some chart)
    (hdim : 2 < s.dim) :
    Submanifold.plot s cr (some cname) =
      Except.error (PyError.valueError
        ("The dimension must be at most 2 for plotting."))
    ∧ (∀ (s2 : Submanifold) (cr2 : List RVal) (cn2 : Option String) (g : Graph),
        Submanifold.plot s2 cr2 cn2 = Except.ok g → s2.dim ≤ 2) := by
  constructor
  · rw [plot_past_checks s cr cname a fns chart ha hR hcart hfns hch]
    have h1 : s.dim ≠ 1 := by omega
    have h2 : s.dim ≠ 2 := by omega
    rw [if_neg h1, if_neg h2]
  · intro s2 cr2 cn2 g hg
    simp only [Submanifold.plot] at hg
    repeat' split at hg
    all_goals first
      | omega
      | exact absurd hg (by simp)

/-- Witness for claim C4 at a concrete input: the 3-dimensional
submanifold `sub3dEx` of `R3ex`. -/
theorem plot_dimension_check_witness :
    Submanifold.plot sub3dEx [] (some ("c3")) =
      Except.error (PyError.valueError
        ("The dimension must be at most 2 for plotting.")) :=
  (plot_dimension_check sub3dEx [] ("c3") ("R3")
    [SymExpr.sym ("g1"), SymExpr.sym ("g2"), SymExpr.sym ("g3")]
    (Chart.mk ("c3") ["p", "q", "r"]) rfl (Or.inr rfl) rfl rfl rfl
    (by decide)).1

/-- Claim C9: the accepted shape of `coord_ranges` depends on the
submanifold dimension: a 1-dimensional submanifold reads the first two
entries directly as the bounds, a 2-dimensional one reads two entry
pairs, and a one-element list of pairs for a 1-dimensional submanifold
fails with an index error. -/
theorem plot_coord_ranges_shape (s : Submanifold) (cr : List RVal)
    (cname a : String) (fns : List SymExpr) (chart : Chart) (x0 : String)
    (ha : s.ambient_manifold.name = some a)
    (hR : a = "R2" ∨ a = "R3")
    (hcart : (s.ambient_manifold.atlas.lookup ("cart")).isSome = true)
    (hfns : s.embedding.coord_expression.lookup (cname, ("cart")) = some fns)
    (hch : s.atlas.lookup cname = some chart)
    (hx0 : chart.xx[0]? = some x0) :
    (s.dim = 1 → ∀ r0 r1, cr[0]? = some r0 → cr[1]? = some r1 →
      Submanifold.plot s cr (some cname) =
        Except.ok (Graph.mk fns [(x0, r0, r1)]))
    ∧ (s.dim = 1 → ∀ p, cr = [RVal.lst p] →
      Submanifold.plot s cr (some cname) = Except.error PyError.indexError)
    ∧ (s.dim = 2 → ∀ x1 rest, chart.xx = x0 :: x1 :: rest →
        ∀ u0 u1 v0 v1,
        cr = [RVal.lst [u0, u1], RVal.lst [v0, v1]] →
        Submanifold.plot s cr (some cname) =
          Except.ok (Graph.mk fns
            [(x0, RVal.num u0, RVal.num u1),
             (x1, RVal.num v0, RVal.num v1)])) := by
  rw [plot_past_checks s cr cname a fns chart ha hR hcart hfns hch]
  refine ⟨?_, ?_, ?_⟩
  · intro hd1 r0 r1 h0 h1
    rw [if_pos hd1]
    simp [pyIdx, hx0, h0, h1]
  · intro hd1 p hp
    rw [if_pos hd1]
    simp [pyIdx, hx0, hp]
  · intro hd2 x1 rest hxx u0 u1 v0 v1 hp
    have h1 : s.dim ≠ 1 := by omega
    rw [if_neg h1, if_pos hd2]
    simp [plotRange, pyIdx, RVal.index, hxx, hp]

/-- Witness for claim C9 at concrete inputs: the 1-dimensional helix with
a flat pair (accepted), the helix with a one-element list of pairs
(rejected with an index error), and the 2-dimensional sphere with a list
of two pairs (accepted). -/
theorem plot_coord_ranges_shape_witness :
    Submanifold.plot helixEx [RVal.num 0, RVal.num 20] (some ("t")) =
      Except.ok (Graph.mk
        [SymExpr.sym ("c1"), SymExpr.sym ("c2"), SymExpr.sym ("c3")]
        [(("t"), RVal.num 0, RVal.num 20)])
    ∧ Submanifold.plot helixEx [RVal.lst [0, 20]] (some ("t")) =
      Except.error PyError.indexError
    ∧ Submanifold.plot sphereEx [RVal.lst [0, 1], RVal.lst [0, 2]]
        (some ("spher")) =
      Except.ok (Graph.mk
        [SymExpr.sym ("fx"), SymExpr.sym ("fy"), SymExpr.sym ("fz")]
        [(("u"), RVal.num 0, RVal.num 1), (("v"), RVal.num 0, RVal.num 2)]) :=
  ⟨(plot_coord_ranges_shape helixEx [RVal.num 0, RVal.num 20] ("t") ("R3")
      [SymExpr.sym ("c1"), SymExpr.sym ("c2"), SymExpr.sym ("c3")]
      (Chart.mk ("t") ["t"]) ("t") rfl (Or.inr rfl) rfl rfl rfl rfl).1
      rfl (RVal.num 0) (RVal.num 20) rfl rfl,
   (plot_coord_ranges_shape helixEx [RVal.lst [0, 20]] ("t") ("R3")
      [SymExpr.sym ("c1"), SymExpr.sym ("c2"), SymExpr.sym ("c3")]
      (Chart.mk ("t") ["t"]) ("t") rfl (Or.inr rfl) rfl rfl rfl rfl).2.1
      rfl [0, 20] rfl,
   (plot_coord_ranges_shape sphereEx [RVal.lst [0, 1], RVal.lst [0, 2]]
      ("spher") ("R3")
      [SymExpr.sym ("fx"), SymExpr.sym ("fy"), SymExpr.sym ("fz")]
      (Chart.mk ("spher") ["u", "v"]) ("u") rfl (Or.inr rfl) rfl rfl
      rfl rfl).2.2 rfl ("v") [] rfl 0 1 0 2 rfl⟩

/-- Claim C10: once the cart-chart existence check has succeeded, the
coordinate-expression lookup is unguarded: a submanifold constructed with
an arrival chart other than cart makes `plot` fail with a key error,
which is neither the not-implemented error nor a value error. -/
theorem plot_missing_cart_expression (n : Nat) (cs cn : String)
    (amb : Manifold) (ef : List EmbArg) (nm ln : Option String) (si : Int)
    (acn a : String) (cr : List RVal) (s : Submanifold)
    (ha : amb.name = some a)
    (hR : a = "R2" ∨ a = "R3")
    (hcart : (amb.atlas.lookup ("cart")).isSome = true)
    (hacn : acn ≠ "cart")
    (h : Submanifold.init n cs cn (AmbArg.manifold amb) ef nm ln (some acn) si =
      Except.ok s) :
    Submanifold.plot s cr (some cn) =
      Except.error (PyError.keyError (cn, ("cart")))
    ∧ (∀ m, PyError.keyError (cn, ("cart")) ≠ PyError.notImplementedError m)
    ∧ (∀ m, PyError.keyError (cn, ("cart")) ≠ PyError.valueError m) := by
  refine ⟨?_, fun m => by simp, fun m => by simp⟩
  simp only [Submanifold.init, resolveArrival] at h
  split at h
  · exact absurd h (by simp)
  · cases h
    obtain ⟨cc, hcc⟩ := Option.isSome_iff_exists.mp hcart
    simp only [Submanifold.plot, ha, Option.getD_some]
    rw [if_pos hR.symm]
    simp only [hcc, Option.isNone_some, Bool.false_eq_true, if_false]
    have hbeq : ((cn, ("cart")) == (cn, acn)) = false := by
      rw [beq_eq_false_iff_ne]
      intro hpair
      exact hacn (congrArg Prod.snd hpair).symm
    simp [List.lookup, hbeq]

/-- Witness for claim C10 at a concrete input: a sphere constructed with
arrival chart spher2 instead of cart, plotted over `R3ex`. -/
theorem plot_missing_cart_expression_witness :
    Submanifold.plot
      (Submanifold.mk 2 (some ("S2")) none 0
        [(("spher"), Chart.mk ("spher") ["u", "v"])]
        (Chart.mk ("spher") ["u", "v"]) R3ex
        (DiffMapping.mk
          [((("spher"), ("spher2")),
            [SymExpr.sym ("h1"), SymExpr.sym ("h2"), SymExpr.sym ("h3")])]))
      [] (some ("spher")) =
      Except.error (PyError.keyError (("spher"), ("cart"))) :=
  (plot_missing_cart_expression 2 ("u v") ("spher") R3ex
    [EmbArg.str ("h1"), EmbArg.str ("h2"), EmbArg.str ("h3")]
    (some ("S2")) none 0 ("spher2") ("R3") [] _ rfl (Or.inr rfl) rfl
    (by decide) rfl).1
